import Mathlib

/-!
# Apollo 11 telemetry relay — verification of the broadcast relay core

Shallow embedding of the live telemetry relay of the apollo11-simulation
repository:

* the HTTP ingestion endpoint `POST /api/spacecraft-distance` and its
  WebSocket fan-out loop (server file, `app.post("/api/spacecraft-distance")`);
* the subscriber client `WebSocketService` (its `onmessage` dispatch, the
  `subscribe`/unsubscribe registry, and the `onclose` reconnection timer);
* the `WebhookService` wrapper around Node's `EventEmitter`.

JavaScript platform primitives used by that code (`Number` coercion,
`isNaN`, `Array.prototype.forEach` under concurrent mutation,
`Array.prototype.indexOf`/`splice`, `EventEmitter.on/off/emit`,
`setTimeout`) are modelled by executable Lean functions following their
ECMAScript / Node.js semantics.  Numbers are modelled as rationals tagged
with the IEEE special values `NaN` and `±Infinity`; none of the verified
properties depend on rounding, so this is exact for every value that
appears.
-/

/-- A JavaScript number: `NaN`, `±Infinity`, or a finite value
(modelled exactly as a rational). -/
inductive JNum where
  | nan
  | inf
  | ninf
  | fin (q : ℚ)
  deriving DecidableEq, Repr

/-- JavaScript `isNaN` on an already-coerced number. -/
def JNum.isNaN : JNum → Bool
  | .nan => true
  | _ => false

/-- Whether a JavaScript number is finite (not `NaN`, not `±Infinity`). -/
def JNum.isFinite : JNum → Bool
  | .fin _ => true
  | _ => false

/-- The JSON-ish values the `distance` field of the request body can hold.
`undef` stands for an omitted field (reading it yields `undefined`). -/
inductive JVal where
  | undef
  | null
  | bool (b : Bool)
  | num (n : JNum)
  | str (s : String)
  deriving DecidableEq, Repr

/-- Accumulator loop for `digitsVal`. -/
def digitsValGo : List Char → Nat → Nat → Option (Nat × Nat)
  | [], acc, k => if k = 0 then none else some (acc, k)
  | c :: rest, acc, k =>
    if c.isDigit then digitsValGo rest (acc * 10 + (c.toNat - '0'.toNat)) (k + 1)
    else none

/-- Parse a run of decimal digits into (value, number of digits read). -/
def digitsVal (cs : List Char) : Option (Nat × Nat) :=
  digitsValGo cs 0 0

/-- Strip leading and trailing whitespace (the trimming `Number(s)` performs). -/
def jsTrim (s : String) : String :=
  String.mk (((s.toList.dropWhile Char.isWhitespace).reverse.dropWhile
    Char.isWhitespace).reverse)

/-- Model of the ECMAScript string-to-number conversion used by `Number(s)`,
covering the string shapes this system exchanges: optional sign, decimal
digits with an optional fractional part, the `Infinity` spellings, and the
empty/whitespace string (which converts to `0`).  Everything else is `NaN`. -/
def strToNum (s : String) : JNum :=
  let t := jsTrim s
  if t = "" then .fin 0
  else if t = "Infinity" ∨ t = "+Infinity" then .inf
  else if t = "-Infinity" then .ninf
  else
    let (sign, body) :=
      match t.toList with
      | '-' :: rest => ((-1 : ℚ), rest)
      | '+' :: rest => ((1 : ℚ), rest)
      | l => ((1 : ℚ), l)
    let intPart := body.takeWhile (·.isDigit)
    let rest := body.dropWhile (·.isDigit)
    match rest with
    | [] =>
      match digitsVal intPart with
      | some (v, _) => .fin (sign * v)
      | none => .nan
    | '.' :: fracChars =>
      if fracChars.all (·.isDigit) ∧ (intPart ≠ [] ∨ fracChars ≠ []) then
        let iv := (digitsVal intPart).map Prod.fst |>.getD 0
        let fv := (digitsVal fracChars).map Prod.fst |>.getD 0
        .fin (sign * ((iv : ℚ) + (fv : ℚ) / (10 : ℚ) ^ fracChars.length))
      else .nan
    | _ => .nan

/-- The ECMAScript `Number(x)` coercion, restricted to the value shapes of
`JVal`: `undefined → NaN`, `null → 0`, booleans to `0`/`1`, numbers to
themselves, strings via `strToNum`. -/
def toNumber : JVal → JNum
  | .undef => .nan
  | .null => .fin 0
  | .bool b => .fin (if b then 1 else 0)
  | .num n => n
  | .str s => strToNum s

/-- WebSocket transport ready states (the `ws` constants). -/
inductive ReadyState where
  | CONNECTING
  | OPEN
  | CLOSING
  | CLOSED
  deriving DecidableEq, Repr

/-- A connection in `wss.clients` at the time of a publish: its transport
state and whether its `send` would throw synchronously on this call. -/
structure Client where
  readyState : ReadyState
  sendFails : Bool
  deriving DecidableEq, Repr

/-- The wire unit: `{ type, payload }`. -/
structure Envelope where
  type : String
  payload : JNum
  deriving DecidableEq, Repr

/-- Bodies of the JSON responses the endpoint produces. -/
inductive RespBody where
  | jsonError (error : String)
  | jsonStatus (status message : String)
  deriving DecidableEq, Repr

/-- An HTTP response: status code plus JSON body. -/
structure HttpResponse where
  status : Nat
  body : RespBody
  deriving DecidableEq, Repr

/-- The `wss.clients.forEach` broadcast loop of the endpoint.  Returns the
envelopes each client received (aligned with the input list) and whether a
`client.send` threw.  Per ECMAScript, an exception thrown by the `forEach`
callback aborts the iteration, so once a send throws no later client is
visited; the throwing client itself does not receive the message. -/
def fanout (env : Envelope) : List Client → List (List Envelope) × Bool
  | [] => ([], false)
  | c :: cs =>
    if c.readyState = .OPEN then
      if c.sendFails then
        ([] :: cs.map (fun _ => []), true)
      else
        let r := fanout env cs
        ([env] :: r.1, r.2)
    else
      let r := fanout env cs
      ([] :: r.1, r.2)

/-- The `app.post("/api/spacecraft-distance")` handler.  Mirrors the source:

```js
try {
  const { distance } = req.body;
  if (distance === undefined || isNaN(Number(distance))) {
    return res.status(400).json({ error: "Invalid distance value" });
  }
  wss.clients.forEach((client) => {
    if (client.readyState === WebSocket.OPEN) {
      client.send(JSON.stringify({ type: "spacecraft-distance",
                                   payload: Number(distance) }));
    }
  });
  res.status(200).json({ status: "success", message: "Distance data received" });
} catch (error) {
  res.status(500).json({ error: "Internal server error" });
}
```

The only throwing operation inside the `try` is `client.send`; a throw
escapes the `forEach` and lands in the `catch`.  Result: the HTTP response
and what each connection of `clients` received. -/
def handleSpacecraftDistance (distance : JVal) (clients : List Client) :
    HttpResponse × List (List Envelope) :=
  if distance = .undef ∨ (toNumber distance).isNaN then
    (⟨400, .jsonError "Invalid distance value"⟩, clients.map (fun _ => []))
  else
    let env : Envelope := ⟨"spacecraft-distance", toNumber distance⟩
    let r := fanout env clients
    if r.2 then
      (⟨500, .jsonError "Internal server error"⟩, r.1)
    else
      (⟨200, .jsonStatus "success" "Distance data received"⟩, r.1)

/-!
## Subscriber client: `WebSocketService` (part of the browser bundle)

The registry is `private callbacks: Map<string, ((data: any) => void)[]>`.
Callback functions are modelled by natural-number identifiers; registering
the same function twice puts the same identifier in the list twice
(JavaScript `===` on functions is reference equality, modelled by `Nat`
equality).  A listener's behaviour, as far as the registry is concerned,
is the sequence of unsubscribe closures it calls when invoked; an
unsubscribe closure is determined by the `(type, callback)` pair it
captured.
-/

/-- The `callbacks` map: message type to the (shared, mutable) array of
registered callbacks, in insertion order. -/
abbrev Registry := List (String × List Nat)

/-- Model of `Map.prototype.get`. -/
def regGet (r : Registry) (t : String) : Option (List Nat) :=
  (r.find? (fun p => p.1 = t)).map Prod.snd

/-- Model of `Map.prototype.has`. -/
def regHas (r : Registry) (t : String) : Bool :=
  (regGet r t).isSome

/-- Model of `Map.prototype.set` (insert or overwrite). -/
def regSet : Registry → String → List Nat → Registry
  | [], t, l => [(t, l)]
  | p :: ps, t, l => if p.1 = t then (t, l) :: ps else p :: regSet ps t l

/-- The registry effect of `subscribe(type, callback)`:

```js
if (!this.callbacks.has(type)) { this.callbacks.set(type, []); }
this.callbacks.get(type)?.push(callback);
```
-/
def subscribe (r : Registry) (t : String) (cb : Nat) : Registry :=
  let r1 := if regHas r t then r else regSet r t []
  regSet r1 t (((regGet r1 t).getD []) ++ [cb])

/-- Model of `Array.prototype.indexOf` (first occurrence, `-1` when absent). -/
def jsIndexOf : List Nat → Nat → Int
  | [], _ => -1
  | y :: ys, x =>
    if y = x then 0
    else
      let i := jsIndexOf ys x
      if i = -1 then -1 else i + 1

/-- The unsubscribe closure returned by `subscribe(type, callback)`:

```js
const callbacks = this.callbacks.get(type);
if (callbacks) {
  const index = callbacks.indexOf(callback);
  if (index !== -1) { callbacks.splice(index, 1); }
}
```

`splice(index, 1)` on the shared array is modelled by writing the erased
list back under `type`. -/
def unsubscribe (r : Registry) (t : String) (cb : Nat) : Registry :=
  match regGet r t with
  | none => r
  | some callbacks =>
    let index := jsIndexOf callbacks cb
    if index ≠ -1 then regSet r t (callbacks.eraseIdx index.toNat) else r

/-- What a listener does to the registry when invoked: the unsubscribe
closures (each identified by its captured `(type, callback)` pair) it
calls, in order. -/
abbrev Effect := List (String × Nat)

/-- Run a listener's unsubscribe calls against the registry. -/
def runEffects (r : Registry) (effs : Effect) : Registry :=
  effs.foldl (fun acc e => unsubscribe acc e.1 e.2) r

/-- The dispatch loop `this.callbacks.get(data.type)?.forEach(cb => cb(data.payload))`
under ECMAScript `forEach` semantics: the index bound `n` (the array length
at loop entry) is fixed up front, and each step re-reads the current state
of the shared array — an index that no longer exists (because an invoked
listener spliced the array) is skipped.  `eff` gives each callback's
registry effects; the result is the final registry and the invocations
`(callback, payload)` in call order. -/
def deliverSteps (eff : Nat → Effect) (p : JNum) (t : String) :
    Nat → Nat → Registry → Registry × List (Nat × JNum)
  | _, 0, r => (r, [])
  | k, n + 1, r =>
    let l := (regGet r t).getD []
    if h : k < l.length then
      let cb := l.get ⟨k, h⟩
      let r1 := runEffects r (eff cb)
      let res := deliverSteps eff p t (k + 1) n r1
      (res.1, (cb, p) :: res.2)
    else
      deliverSteps eff p t (k + 1) n r

/-- An incoming WebSocket frame, as seen after `JSON.parse`: either the
parse threw, or it produced `{ type, payload }`.  A missing or otherwise
falsy `type` is modelled by the empty string (the only falsy string). -/
inductive ClientMsg where
  | parseFail
  | parsed (type : String) (payload : JNum)
  deriving DecidableEq, Repr

/-- Outcome of one `onmessage` invocation: the registry afterwards, the
listener invocations performed (in order, each receiving the payload), and
whether the handler logged a parse error.  The handler itself never
throws (the `try`/`catch` swallows parse failures) and never touches the
connection. -/
structure MsgResult where
  registry : Registry
  invoked : List (Nat × JNum)
  errorLogged : Bool
  deriving DecidableEq, Repr

/-- The `socket.onmessage` handler:

```js
try {
  const data = JSON.parse(event.data);
  if (data.type && this.callbacks.has(data.type)) {
    this.callbacks.get(data.type)?.forEach((callback) => callback(data.payload));
  }
} catch (error) {
  console.error("Error parsing WebSocket message:", error);
}
```
-/
def onmessage (eff : Nat → Effect) (r : Registry) (m : ClientMsg) : MsgResult :=
  match m with
  | .parseFail => ⟨r, [], true⟩
  | .parsed t p =>
    if t ≠ "" ∧ regHas r t then
      let len := ((regGet r t).getD []).length
      let res := deliverSteps eff p t 0 len r
      ⟨res.1, res.2, false⟩
    else
      ⟨r, [], false⟩

/-!
## Subscriber client: reconnection

`connect()` creates a socket and installs the handlers; `socket.onclose`
runs `setTimeout(() => this.connect(), 2000)`.  Timers are modelled by a
FIFO list of absolute fire times; `connectCount` counts connection
attempts (calls to `connect`).
-/

/-- The fixed reconnection delay (`2000` ms in the `setTimeout` call). -/
def reconnectDelay : Nat := 2000

/-- State of the reconnecting client: how many connection attempts have
been made, and the absolute fire times of pending reconnect timers. -/
structure WSClientState where
  connectCount : Nat
  pending : List Nat
  deriving DecidableEq, Repr

/-- Model of `connect()` — one more connection attempt (the new socket gets the
same `onmessage`/`onclose` handlers). -/
def wsConnect (s : WSClientState) : WSClientState :=
  { s with connectCount := s.connectCount + 1 }

/-- The `socket.onclose` handler at wall-clock time `now`:
`setTimeout(() => this.connect(), 2000)` schedules exactly one timer, to
fire at `now + 2000`; nothing connects immediately. -/
def onclose (now : Nat) (s : WSClientState) : WSClientState :=
  { s with pending := s.pending ++ [now + reconnectDelay] }

/-- The earliest pending timer fires: its callback `() => this.connect()`
runs.  No-op when nothing is pending. -/
def fireTimer (s : WSClientState) : WSClientState :=
  match s.pending with
  | [] => s
  | _ :: rest => wsConnect { s with pending := rest }

/-- A sequence of disconnect/reconnect cycles: for each close time `t` in
the list, the close handler runs at `t` and the scheduled timer later
fires.  Returns the final state and the time of each reconnection
attempt. -/
def runCycles (s : WSClientState) : List Nat → WSClientState × List Nat
  | [] => (s, [])
  | t :: ts =>
    let s1 := fireTimer (onclose t s)
    let res := runCycles s1 ts
    (res.1, (t + reconnectDelay) :: res.2)

/-!
## `WebhookService` (src/services/WebhookService.ts)

A thin wrapper around Node's `EventEmitter`, used with the single event
name `"distanceUpdate"`; only that event's listener array is modelled.
Node semantics: `on` appends; `emit` calls a snapshot of the current
listeners in registration order; `off`/`removeListener` removes the most
recently added matching listener (it scans from the end of the array).
-/

/-- Node `EventEmitter`, restricted to the `"distanceUpdate"` event. -/
structure EventEmitter where
  listeners : List Nat
  deriving DecidableEq, Repr

/-- Index of the last occurrence of `x` (Node's `removeListener` scans
from the end). -/
def lastIdxOf : List Nat → Nat → Option Nat
  | [], _ => none
  | y :: ys, x =>
    match lastIdxOf ys x with
    | some i => some (i + 1)
    | none => if y = x then some 0 else none

/-- Model of `emitter.on("distanceUpdate", callback)` — appends. -/
def EventEmitter.on (e : EventEmitter) (cb : Nat) : EventEmitter :=
  ⟨e.listeners ++ [cb]⟩

/-- Model of `emitter.off("distanceUpdate", callback)` — removes the most recently
added occurrence of `callback`, if any. -/
def EventEmitter.off (e : EventEmitter) (cb : Nat) : EventEmitter :=
  match lastIdxOf e.listeners cb with
  | none => e
  | some i => ⟨e.listeners.eraseIdx i⟩

/-- Model of `emitter.emit("distanceUpdate", distance)` — synchronously invokes
every currently registered listener, in registration order, with the
argument; returns the invocation list. -/
def EventEmitter.emit (e : EventEmitter) (distance : ℚ) : List (Nat × ℚ) :=
  e.listeners.map (fun cb => (cb, distance))

/-- Model of `WebhookService.handleSpacecraftData(data)`:
`this.eventEmitter.emit("distanceUpdate", data.distance)`. -/
def handleSpacecraftData (e : EventEmitter) (distance : ℚ) : List (Nat × ℚ) :=
  e.emit distance

/-- Model of `WebhookService.onDistanceUpdate(callback)` registers the callback;
the returned unsubscribe function is `() => this.eventEmitter.off(...)`,
i.e. `EventEmitter.off` applied to the same callback. -/
def onDistanceUpdate (e : EventEmitter) (cb : Nat) : EventEmitter :=
  e.on cb

/-!
## Helper lemmas
-/

/-- A listener environment in which no listener touches the registry. -/
def pureEff : Nat → Effect := fun _ => []

/-- Specification of `jsIndexOf`: either the element is absent and the
result is `-1`, or the result is the index of the first occurrence and
erasing at that index is `List.erase`. -/
lemma jsIndexOf_cases (l : List Nat) (x : Nat) :
    (jsIndexOf l x = -1 ∧ x ∉ l) ∨
    (∃ n : Nat, jsIndexOf l x = n ∧ x ∈ l ∧ l.eraseIdx n = l.erase x) := by
  induction l with
  | nil => exact Or.inl ⟨rfl, by simp⟩
  | cons y ys ih =>
    by_cases hyx : y = x
    · refine Or.inr ⟨0, ?_, ?_, ?_⟩
      · simp [jsIndexOf, hyx]
      · simp [hyx]
      · subst hyx
        simp [List.eraseIdx, List.erase_cons_head]
    · rcases ih with ⟨h1, h2⟩ | ⟨n, h1, h2, h3⟩
      · refine Or.inl ⟨?_, ?_⟩
        · simp [jsIndexOf, hyx, h1]
        · simp [hyx, h2, Ne.symm hyx]
      · refine Or.inr ⟨n + 1, ?_, ?_, ?_⟩
        · have hne : (n : Int) ≠ -1 := by omega
          simp [jsIndexOf, hyx, h1, hne]
        · simp [h2]
        · have herase : (y :: ys).erase x = y :: ys.erase x := by
            rw [List.erase_cons_tail]
            simp [hyx]
          simp [List.eraseIdx, h3, herase]

/-- Reading back the key just written by `regSet`. -/
lemma regGet_regSet_self (r : Registry) (t : String) (l : List Nat) :
    regGet (regSet r t l) t = some l := by
  induction r with
  | nil => simp [regSet, regGet]
  | cons p ps ih =>
    by_cases h : p.1 = t
    · simp [regSet, h, regGet]
    · simp only [regSet, if_neg h]
      simpa [regGet, List.find?, h] using ih

/-- The unsubscribe closure erases the first occurrence of the callback
(or does nothing when the callback is absent from the list). -/
lemma unsubscribe_spec (r : Registry) (t : String) (cb : Nat) (l : List Nat)
    (hget : regGet r t = some l) :
    unsubscribe r t cb = if cb ∈ l then regSet r t (l.erase cb) else r := by
  unfold unsubscribe
  rw [hget]
  rcases jsIndexOf_cases l cb with ⟨h1, h2⟩ | ⟨n, h1, h2, h3⟩
  · simp [h1, h2]
  · have hne : (n : Int) ≠ -1 := by omega
    simp [h1, h2, hne, h3]

/-- With listeners that do not touch the registry, the dispatch loop
starting at index `k` with `n` iterations left invokes exactly the next
`n` entries of the current list, in order, and leaves the registry
unchanged. -/
lemma deliverSteps_pure (p : JNum) (t : String) :
    ∀ (n k : Nat) (r : Registry),
      deliverSteps pureEff p t k n r =
        (r, ((((regGet r t).getD []).drop k).take n).map (fun c => (c, p))) := by
  intro n
  induction n with
  | zero => intro k r; simp [deliverSteps]
  | succ n ih =>
    intro k r
    unfold deliverSteps
    by_cases h : k < ((regGet r t).getD []).length
    · rw [dif_pos h]
      have hre : runEffects r (pureEff (((regGet r t).getD []).get ⟨k, h⟩)) = r := rfl
      simp only [hre, ih (k + 1) r]
      have hdrop : ((regGet r t).getD []).drop k =
          ((regGet r t).getD []).get ⟨k, h⟩ :: ((regGet r t).getD []).drop (k + 1) := by
        rw [List.get_eq_getElem, List.drop_eq_getElem_cons h]
      rw [hdrop, List.take_succ_cons, List.map_cons]
    · rw [dif_neg h]
      rw [ih (k + 1) r]
      have h1 : ((regGet r t).getD []).drop k = [] :=
        List.drop_eq_nil_of_le (Nat.le_of_not_lt h)
      have h2 : ((regGet r t).getD []).drop (k + 1) = [] :=
        List.drop_eq_nil_of_le (Nat.le_succ_of_le (Nat.le_of_not_lt h))
      rw [h1, h2]
      simp

/-- With listeners that do not touch the registry, `onmessage` on a
truthy type invokes exactly the currently registered listeners, in
registration order, each with the payload. -/
lemma onmessage_pure (r : Registry) (t : String) (p : JNum) (ht : t ≠ "") :
    onmessage pureEff r (.parsed t p) =
      ⟨r, ((regGet r t).getD []).map (fun cb => (cb, p)), false⟩ := by
  simp only [onmessage]
  by_cases hh : regHas r t
  · rw [if_pos ⟨ht, hh⟩]
    rw [deliverSteps_pure]
    simp
  · rw [if_neg (fun hc => hh hc.2)]
    have hnone : regGet r t = none := by
      unfold regHas at hh
      exact Option.not_isSome_iff_eq_none.mp (by simpa using hh)
    simp [hnone]

/-- When no open connection's `send` throws, the broadcast loop delivers
the envelope to exactly the open connections and no exception escapes. -/
lemma fanout_no_fail (env : Envelope) (cs : List Client)
    (hok : ∀ c ∈ cs, c.readyState = .OPEN → c.sendFails = false) :
    fanout env cs =
      (cs.map (fun c => if c.readyState = .OPEN then [env] else []), false) := by
  induction cs with
  | nil => rfl
  | cons c cs ih =>
    have hrest : ∀ x ∈ cs, x.readyState = .OPEN → x.sendFails = false :=
      fun x hx => hok x (List.mem_cons_of_mem _ hx)
    unfold fanout
    by_cases hopen : c.readyState = .OPEN
    · have hc : c.sendFails = false := hok c (List.mem_cons_self _ _) hopen
      rw [if_pos hopen]
      simp [hc, ih hrest, hopen]
    · rw [if_neg hopen]
      simp [ih hrest, hopen]

/-- An invalid `distance` (omitted, or coercing to `NaN`) short-circuits
into the 400 response with no fan-out. -/
lemma handle_invalid (v : JVal) (cs : List Client)
    (h : v = .undef ∨ (toNumber v).isNaN = true) :
    handleSpacecraftDistance v cs =
      (⟨400, .jsonError "Invalid distance value"⟩, cs.map (fun _ => [])) := by
  unfold handleSpacecraftDistance
  rw [if_pos h]

/-- A `distance` that passes validation never produces a 400 response
(the outcome is 200, or 500 when a send threw). -/
lemma handle_valid_status (v : JVal) (cs : List Client)
    (h : ¬(v = .undef ∨ (toNumber v).isNaN = true)) :
    (handleSpacecraftDistance v cs).1.status ≠ 400 := by
  unfold handleSpacecraftDistance
  rw [if_neg h]
  dsimp only
  split <;> simp

/-- Starting with no pending timer, a sequence of close/fire cycles makes
exactly one connection attempt per close, each at close time plus the
fixed delay, and ends with no pending timer. -/
lemma runCycles_spec :
    ∀ (ts : List Nat) (s : WSClientState), s.pending = [] →
      runCycles s ts =
        (⟨s.connectCount + ts.length, []⟩, ts.map (fun t => t + reconnectDelay)) := by
  intro ts
  induction ts with
  | nil =>
    intro s hp
    cases s with
    | mk cc pending =>
      simp only at hp
      subst hp
      rfl
  | cons t ts ih =>
    intro s hp
    have hstep : fireTimer (onclose t s) = ⟨s.connectCount + 1, []⟩ := by
      simp [onclose, hp, fireTimer, wsConnect]
    unfold runCycles
    dsimp only
    rw [hstep, ih ⟨s.connectCount + 1, []⟩ rfl]
    simp
    omega

/-- Appending an element and then looking for its last occurrence finds
exactly the appended position. -/
lemma lastIdxOf_append (l : List Nat) (x : Nat) :
    lastIdxOf (l ++ [x]) x = some l.length := by
  induction l with
  | nil => simp [lastIdxOf]
  | cons y ys ih =>
    have ih2 : lastIdxOf (List.append ys [x]) x = some ys.length := ih
    simp only [List.cons_append, lastIdxOf, ih, ih2, List.length_cons]

/-- Erasing the appended position recovers the original list. -/
lemma eraseIdx_append (l : List Nat) (x : Nat) :
    (l ++ [x]).eraseIdx l.length = l := by
  induction l with
  | nil => rfl
  | cons y ys ih =>
    have ih2 : (List.append ys [x]).eraseIdx ys.length = ys := ih
    simp only [List.cons_append, List.length_cons, List.eraseIdx, ih, ih2]

/-!
## Claims
-/

/-- C1 (counterexample): the claim asserts that a `null` distance yields a
400 response and no broadcast, but the handler coerces `null` to `0`
(`isNaN(Number(null))` is false), responds 200 and broadcasts the
envelope `{type: "spacecraft-distance", payload: 0}` to the open
connection. -/
theorem C1_counterexample :
    handleSpacecraftDistance JVal.null [⟨.OPEN, false⟩] =
      (⟨200, .jsonStatus "success" "Distance data received"⟩,
        [[⟨"spacecraft-distance", JNum.fin 0⟩]]) ∧
    (handleSpacecraftDistance JVal.null [⟨.OPEN, false⟩]).1.status ≠ 400 := by
  decide

/-- C1 (amended): the endpoint responds 400 if and only if the `distance`
field is omitted (`undefined`) or `Number(distance)` is `NaN`; in that
case the body is `{"error":"Invalid distance value"}` and no connection
receives anything.  (`null` coerces to `0` and non-finite coercions such
as `Infinity` pass validation, so they are accepted, not rejected.) -/
theorem C1_validation_amended (v : JVal) (cs : List Client) :
    (((handleSpacecraftDistance v cs).1.status = 400) ↔
      (v = JVal.undef ∨ (toNumber v).isNaN = true)) ∧
    ((v = JVal.undef ∨ (toNumber v).isNaN = true) →
      handleSpacecraftDistance v cs =
        (⟨400, .jsonError "Invalid distance value"⟩, cs.map (fun _ => []))) := by
  refine ⟨⟨fun h400 => ?_, fun h => by rw [handle_invalid v cs h]⟩,
    fun h => handle_invalid v cs h⟩
  by_contra hc
  exact handle_valid_status v cs hc h400

/-- Witness for `C1_validation_amended` at the concrete input `"abc"`. -/
theorem C1_validation_witness :
    handleSpacecraftDistance (JVal.str "abc") [⟨.OPEN, false⟩] =
      (⟨400, .jsonError "Invalid distance value"⟩, [[]]) :=
  (C1_validation_amended (JVal.str "abc") [⟨.OPEN, false⟩]).2 (Or.inr (by decide))

/-- C2: for every `distance` that coerces to a finite number, the
endpoint responds `200 {"status":"success","message":"Distance data
received"}` and exactly one envelope `{type: "spacecraft-distance",
payload: Number(distance)}` is sent to every connection that is open at
the time of the call, while connections not in the open state are
skipped without error (no send throws here, so the loop completes).
Only the connections present in `clients` at call time appear in the
delivery list, so connections that open later receive nothing from this
publish. -/
theorem C2_valid_broadcast (v : JVal) (q : ℚ) (cs : List Client)
    (hfin : toNumber v = .fin q)
    (hok : ∀ c ∈ cs, c.readyState = .OPEN → c.sendFails = false) :
    handleSpacecraftDistance v cs =
      (⟨200, .jsonStatus "success" "Distance data received"⟩,
        cs.map (fun c =>
          if c.readyState = .OPEN then [⟨"spacecraft-distance", JNum.fin q⟩]
          else [])) := by
  have hne : ¬(v = JVal.undef ∨ (toNumber v).isNaN = true) := by
    rintro (rfl | hnan)
    · simp [toNumber] at hfin
    · rw [hfin] at hnan
      simp [JNum.isNaN] at hnan
  unfold handleSpacecraftDistance
  rw [if_neg hne]
  dsimp only
  rw [hfin, fanout_no_fail _ cs hok]
  simp

/-- Witness for `C2_valid_broadcast`: distance `384400` with one open and
one closed connection. -/
theorem C2_valid_broadcast_witness :
    handleSpacecraftDistance (JVal.num (.fin 384400)) [⟨.OPEN, false⟩, ⟨.CLOSED, true⟩] =
      (⟨200, .jsonStatus "success" "Distance data received"⟩,
        [[⟨"spacecraft-distance", JNum.fin 384400⟩], []]) :=
  C2_valid_broadcast (JVal.num (.fin 384400)) 384400 [⟨.OPEN, false⟩, ⟨.CLOSED, true⟩]
    rfl (by decide)

/-- C3 (code bug): the spec requires per-connection send failures to be
isolated, but the broadcast loop has no per-send exception handling: when
`send` to the first open connection throws, the `forEach` aborts inside
the endpoint's single `try`, the second open connection receives nothing,
and the HTTP response is 500, not 200. -/
theorem C3_send_failure_bug :
    handleSpacecraftDistance (JVal.num (.fin 1)) [⟨.OPEN, true⟩, ⟨.OPEN, false⟩] =
      (⟨500, .jsonError "Internal server error"⟩, [[], []]) := by
  decide

/-- C4 (code bug): the spec requires delivery to tolerate unsubscribing
during dispatch, but the client iterates the live callbacks array.  With
listeners `0` and `1` registered for type `"t"` and listener `0`
unsubscribing itself when invoked, the `splice` shifts the array under
the `forEach`, so listener `1` — still registered afterwards, as the
final registry shows — is never invoked. -/
theorem C4_self_unsubscribe_bug :
    onmessage (fun cb => if cb = 0 then [("t", 0)] else []) [("t", [0, 1])]
        (.parsed "t" (.fin 1)) =
      ⟨[("t", [1])], [(0, .fin 1)], false⟩ := by
  decide

/-- C5 (counterexample): the claim asserts the unsubscribe closure is a
no-op after its first call even when the same listener function is
registered twice.  With callback `7` registered twice under `"t"`, the
first call removes one occurrence and the second call removes the other
— it is not a no-op. -/
theorem C5_counterexample :
    unsubscribe [("t", [7, 7])] "t" 7 = [("t", [7])] ∧
    unsubscribe (unsubscribe [("t", [7, 7])] "t" 7) "t" 7 = [("t", [])] ∧
    unsubscribe (unsubscribe [("t", [7, 7])] "t" 7) "t" 7 ≠
      unsubscribe [("t", [7, 7])] "t" 7 := by
  decide

/-- C5 (amended): the unsubscribe closure removes the first occurrence of
its captured callback from the type's collection; when the callback is
registered at most once there, repeat calls are no-ops; and subsequent
deliveries (with listeners that do not mutate the registry) invoke
exactly the remaining listeners in order, so the removed occurrence no
longer fires while the other listeners of the type still fire. -/
theorem C5_unsubscribe_amended (r : Registry) (t : String) (cb : Nat) (l : List Nat)
    (p : JNum) (hget : regGet r t = some l) (ht : t ≠ "") :
    regGet (unsubscribe r t cb) t = some (l.erase cb) ∧
    (l.count cb ≤ 1 →
      unsubscribe (unsubscribe r t cb) t cb = unsubscribe r t cb) ∧
    (onmessage pureEff (unsubscribe r t cb) (.parsed t p)).invoked =
      (l.erase cb).map (fun c => (c, p)) := by
  have hspec := unsubscribe_spec r t cb l hget
  have hget2 : regGet (unsubscribe r t cb) t = some (l.erase cb) := by
    rw [hspec]
    by_cases hmem : cb ∈ l
    · rw [if_pos hmem, regGet_regSet_self]
    · rw [if_neg hmem, hget, List.erase_of_not_mem hmem]
  refine ⟨hget2, ?_, ?_⟩
  · intro hcount
    have h1 : (l.erase cb).count cb = l.count cb - 1 := List.count_erase_self cb l
    have h2 : (l.erase cb).count cb = 0 := by omega
    have hnotmem : cb ∉ l.erase cb := List.count_eq_zero.mp h2
    rw [unsubscribe_spec (unsubscribe r t cb) t cb (l.erase cb) hget2, if_neg hnotmem]
  · rw [onmessage_pure (unsubscribe r t cb) t p ht]
    simp [hget2]

/-- Witness for `C5_unsubscribe_amended`: callbacks `1` and `2` under
`"t"`; unsubscribing `1` leaves `2`, is idempotent, and a subsequent
delivery invokes only `2`. -/
theorem C5_unsubscribe_witness :
    regGet (unsubscribe [("t", [1, 2])] "t" 1) "t" = some [2] ∧
    unsubscribe (unsubscribe [("t", [1, 2])] "t" 1) "t" 1 =
      unsubscribe [("t", [1, 2])] "t" 1 ∧
    (onmessage pureEff (unsubscribe [("t", [1, 2])] "t" 1)
        (.parsed "t" (.fin 0))).invoked = [(2, JNum.fin 0)] := by
  have h := C5_unsubscribe_amended [("t", [1, 2])] "t" 1 [1, 2] (.fin 0) rfl (by decide)
  exact ⟨h.1.trans (by decide), h.2.1 (by decide), h.2.2.trans (by decide)⟩

/-- C6 (counterexample): the claim asserts every successfully parsed
envelope reaches the listeners of its type, but an envelope whose type is
the empty string (falsy) is dropped even though a listener is registered
under exactly that type. -/
theorem C6_counterexample :
    regHas [("", [0])] "" = true ∧
    (onmessage pureEff [("", [0])] (.parsed "" (.fin 2))).invoked = [] := by
  decide

/-- C6 (amended): for every parsed envelope whose type is truthy
(non-empty), every listener currently registered for that type — with
listeners that do not mutate the registry during delivery — is invoked
with the payload in registration order, with no deduplication (the
resulting invocation list is exactly the registered list, duplicates
included). -/
theorem C6_dispatch_amended (r : Registry) (t : String) (p : JNum) (ht : t ≠ "") :
    onmessage pureEff r (.parsed t p) =
      ⟨r, ((regGet r t).getD []).map (fun cb => (cb, p)), false⟩ :=
  onmessage_pure r t p ht

/-- Witness for `C6_dispatch_amended`: callback `3` registered twice for
`"spacecraft-distance"` fires twice, in order, with the payload. -/
theorem C6_dispatch_witness :
    onmessage pureEff [("spacecraft-distance", [3, 3])]
        (.parsed "spacecraft-distance" (.fin 7)) =
      ⟨[("spacecraft-distance", [3, 3])], [(3, .fin 7), (3, .fin 7)], false⟩ :=
  (C6_dispatch_amended [("spacecraft-distance", [3, 3])] "spacecraft-distance" (.fin 7)
    (by decide)).trans (by decide)

/-- C7: every close schedules exactly one reconnection attempt, to fire
exactly `2000` ms later and not before (`connectCount` is unchanged by
the close itself and grows only when the timer fires at close time plus
`2000`); over any sequence of close/fire cycles this repeats indefinitely
with one attempt per close at a constant `2000` ms delay — no backoff
growth, no retry limit. -/
theorem C7_reconnection (s : WSClientState) (now : Nat) (ts : List Nat)
    (hp : s.pending = []) :
    (onclose now s).pending = s.pending ++ [now + 2000] ∧
    (onclose now s).connectCount = s.connectCount ∧
    (runCycles s ts).2 = ts.map (fun t => t + 2000) ∧
    (runCycles s ts).1.connectCount = s.connectCount + ts.length ∧
    (runCycles s ts).1.pending = [] := by
  have h := runCycles_spec ts s hp
  exact ⟨rfl, rfl, by rw [h]; rfl, by rw [h], by rw [h]⟩

/-- Witness for `C7_reconnection`: a fresh client, a close at `t = 100`,
and the cycle trace for closes at `0` and `5000`. -/
theorem C7_reconnection_witness :
    (onclose 100 ⟨0, []⟩).pending = [2100] ∧
    (onclose 100 ⟨0, []⟩).connectCount = 0 ∧
    (runCycles ⟨0, []⟩ [0, 5000]).2 = [2000, 7000] ∧
    (runCycles ⟨0, []⟩ [0, 5000]).1.connectCount = 2 ∧
    (runCycles ⟨0, []⟩ [0, 5000]).1.pending = [] :=
  C7_reconnection ⟨0, []⟩ 100 [0, 5000] rfl

/-- C8: a message that fails to parse is discarded with a log line: no
listener is invoked, the registry is untouched, and — because the
`catch` swallows the exception and never touches the socket — the handler
neither throws nor closes the connection (it is a total function into
`MsgResult`, which carries no throw or close outcome). -/
theorem C8_parse_failure (eff : Nat → Effect) (r : Registry) :
    onmessage eff r .parseFail = ⟨r, [], true⟩ :=
  rfl

/-- C9: a successfully parsed message whose `type` is falsy (the empty
string) invokes no listeners and is silently dropped (no error logged),
whatever listeners — including listeners registered under exactly the
empty type — the registry holds. -/
theorem C9_falsy_type (eff : Nat → Effect) (r : Registry) (p : JNum) :
    onmessage eff r (.parsed "" p) = ⟨r, [], false⟩ := by
  simp [onmessage]

/-- C10: `WebhookService.handleSpacecraftData` synchronously invokes every
currently registered distance callback exactly once, with `data.distance`,
in registration order (the invocation list equals the listener list); and
the unsubscribe function returned by `onDistanceUpdate` removes exactly
the registration it was returned for, restoring the previous listener
list, so an unsubscribed callback is no longer invoked while the others
still are. -/
theorem C10_webhook_dispatch (e : EventEmitter) (d : ℚ) :
    handleSpacecraftData e d = e.listeners.map (fun cb => (cb, d)) ∧
    ∀ cb : Nat, ((onDistanceUpdate e cb).off cb).listeners = e.listeners := by
  refine ⟨rfl, fun cb => ?_⟩
  simp [onDistanceUpdate, EventEmitter.on, EventEmitter.off, lastIdxOf_append,
    eraseIdx_append]
